import Mathlib

/-!
Verification of the `rusty` chatbot server (src/chatbot/rusty/src/lib.rs).

The server is shallowly embedded: the request text is a Lean `String`
(the Rust code turns the read buffer into text with `from_utf8_lossy`
before any inspection, so all branching happens on text), the pure
per-request computation `Rusty::run`'s spawned task performs is the
function `handleRequest`, and the emitted HTTP responses are the exact
`format!` strings of the source.  Rust byte indices into the request
are modelled as character indices: every delimiter the code searches
for (`"\r\n\r\n"`, the literal route prefixes) is ASCII, so the first
byte-level occurrence and the first character-level occurrence are the
same occurrence, and the text on either side of it is the same text.
Byte lengths of strings (Rust `str::len`) are modelled by `byteLength`,
which sums the UTF-8 width of each character.

`serde_json` is an external crate, not part of the repository; its
behaviour on `ChatMessage` is modelled by an executable JSON parser /
decoder (`from_str_ChatMessage`) and encoder (`to_string_ChatMessage`)
following the semantics of `serde_json::from_str` and
`serde_json::to_string` for a two-string-field struct: whitespace
tolerated around tokens, full value grammar (null, booleans, numbers,
strings with escapes, arrays, objects), both fields required to be
strings, duplicate fields rejected, unknown fields ignored, trailing
non-whitespace rejected.
-/

/-- The protocol payload (`struct ChatMessage` in lib.rs): two string
fields, `user` and `message`, in that declaration order. -/
structure ChatMessage where
  user : String
  message : String
deriving DecidableEq

/-- The transform (`process_message` in lib.rs): the reply has `user`
fixed to `"Rusty"` and `message` equal to `format!("You said: {}", m.message)`.
The source function is `async` but performs no effect and is awaited
immediately, so it is embedded as the pure function it is. -/
def process_message (m : ChatMessage) : ChatMessage :=
  { user := "Rusty", message := "You said: " ++ m.message }

/-! ### Byte lengths (Rust `str::len`) -/

/-- UTF-8 width in bytes of one character. -/
def utf8Len (c : Char) : Nat :=
  if c.toNat < 0x80 then 1
  else if c.toNat < 0x800 then 2
  else if c.toNat < 0x10000 then 3
  else 4

/-- Byte length of a string; models Rust `str::len` (UTF-8 byte count). -/
def byteLength (s : String) : Nat :=
  (s.data.map utf8Len).sum

/-! ### Model of `serde_json` for `ChatMessage` -/

/-- A parsed JSON value.  Numbers keep their source text: the decoder
only ever needs to know that a value is not a string. -/
inductive Json where
  | null
  | bool (b : Bool)
  | num (raw : List Char)
  | str (s : String)
  | arr (elems : List Json)
  | obj (members : List (String × Json))

/-- JSON insignificant whitespace (RFC 8259). -/
def isJsonWs (c : Char) : Bool :=
  c == ' ' || c == '\t' || c == '\n' || c == '\r'

/-- Drop leading JSON whitespace. -/
def skipJsonWs (cs : List Char) : List Char :=
  cs.dropWhile isJsonWs

/-- The value of a hex digit, if the character is one (codepoints 48-57
are the decimal digits, 97-102 lowercase a-f, 65-70 uppercase A-F). -/
def hexDigitVal (c : Char) : Option Nat :=
  let n := c.toNat
  if 48 ≤ n ∧ n ≤ 57 then some (n - 48)
  else if 97 ≤ n ∧ n ≤ 102 then some (n - 87)
  else if 65 ≤ n ∧ n ≤ 70 then some (n - 55)
  else none

/-- Combine four hex digits into a code unit value. -/
def hexQuad (a b c d : Char) : Option Nat :=
  match hexDigitVal a, hexDigitVal b, hexDigitVal c, hexDigitVal d with
  | some va, some vb, some vc, some vd => some (((va * 16 + vb) * 16 + vc) * 16 + vd)
  | _, _, _, _ => none

/-- Longest leading run of decimal digits, and the rest. -/
def takeDigits (cs : List Char) : List Char × List Char :=
  cs.span Char.isDigit

/-- Rest of a JSON string after the opening quote, decoding escapes.
Models serde_json: raw control characters are rejected, `\uXXXX` high
surrogates must be followed by a low surrogate, lone surrogates are
rejected.  `fuel` only guarantees termination; it is always given at
least the input length plus one, which is enough. -/
def jsonStringRest (fuel : Nat) (cs : List Char) : Option (List Char × List Char) :=
  match fuel, cs with
  | 0, _ => none
  | _, [] => none
  | fuel + 1, c :: cs =>
    if c = '\"' then some ([], cs)
    else if c = '\\' then
      match cs with
      | 'u' :: a :: b :: c2 :: d :: rest =>
          match hexQuad a b c2 d with
          | none => none
          | some n =>
            if 0xD800 ≤ n && n ≤ 0xDBFF then
              match rest with
              | '\\' :: 'u' :: e :: f :: g :: h :: rest2 =>
                  match hexQuad e f g h with
                  | none => none
                  | some m =>
                    if 0xDC00 ≤ m && m ≤ 0xDFFF then
                      match jsonStringRest fuel rest2 with
                      | some (out, rem) =>
                          some (Char.ofNat (0x10000 + (n - 0xD800) * 0x400 + (m - 0xDC00)) :: out, rem)
                      | none => none
                    else none
              | _ => none
            else if 0xDC00 ≤ n && n ≤ 0xDFFF then none
            else
              match jsonStringRest fuel rest with
              | some (out, rem) => some (Char.ofNat n :: out, rem)
              | none => none
      | e :: rest =>
          match
            (if e = '\"' then some '\"'
             else if e = '\\' then some '\\'
             else if e = '/' then some '/'
             else if e = 'b' then some (Char.ofNat 8)
             else if e = 'f' then some (Char.ofNat 12)
             else if e = 'n' then some '\n'
             else if e = 'r' then some '\r'
             else if e = 't' then some '\t'
             else none) with
          | some decoded =>
              match jsonStringRest fuel rest with
              | some (out, rem) => some (decoded :: out, rem)
              | none => none
          | none => none
      | [] => none
    else if c.toNat < 0x20 then none
    else
      match jsonStringRest fuel cs with
      | some (out, rem) => some (c :: out, rem)
      | none => none

/-- A JSON number after its optional minus sign: integer part with the
no-leading-zero rule, optional fraction, optional exponent.  Returns
the remaining input (the number's own text is irrelevant here). -/
def jsonNumberRest (cs : List Char) : Option (List Char) :=
  match takeDigits cs with
  | ([], _) => none
  | ('0' :: _ :: _, _) => none
  | (_, rest1) =>
    let rest2 :=
      match rest1 with
      | '.' :: more =>
          match takeDigits more with
          | ([], _) => none
          | (_, r) => some r
      | _ => some rest1
    match rest2 with
    | none => none
    | some r2 =>
      match r2 with
      | 'e' :: more | 'E' :: more =>
          let more2 := match more with
            | '+' :: r => r
            | '-' :: r => r
            | _ => more
          match takeDigits more2 with
          | ([], _) => none
          | (_, r) => some r
      | _ => some r2

mutual

/-- Parse one JSON value (leading whitespace allowed), returning it and
the remaining input.  Recursion is on `fuel`; callers supply more fuel
than the input length, which can never be exhausted since every
recursive call follows at least one consumed character. -/
def jsonValue (fuel : Nat) (cs : List Char) : Option (Json × List Char) :=
  match fuel with
  | 0 => none
  | fuel + 1 =>
    match skipJsonWs cs with
    | 'n' :: 'u' :: 'l' :: 'l' :: rest => some (Json.null, rest)
    | 't' :: 'r' :: 'u' :: 'e' :: rest => some (Json.bool true, rest)
    | 'f' :: 'a' :: 'l' :: 's' :: 'e' :: rest => some (Json.bool false, rest)
    | '\"' :: rest =>
        match jsonStringRest (rest.length + 1) rest with
        | some (out, rem) => some (Json.str ⟨out⟩, rem)
        | none => none
    | '[' :: rest =>
        match skipJsonWs rest with
        | ']' :: rem => some (Json.arr [], rem)
        | other =>
            match jsonArrayItems fuel other with
            | some (items, rem) => some (Json.arr items, rem)
            | none => none
    | '\x7b' :: rest =>
        match skipJsonWs rest with
        | '\x7d' :: rem => some (Json.obj [], rem)
        | other =>
            match jsonObjectItems fuel other with
            | some (mems, rem) => some (Json.obj mems, rem)
            | none => none
    | '-' :: rest =>
        match jsonNumberRest rest with
        | some rem => some (Json.num ('-' :: rest.take (rest.length - rem.length)), rem)
        | none => none
    | c :: rest =>
        if '0' ≤ c && c ≤ '9' then
          match jsonNumberRest (c :: rest) with
          | some rem => some (Json.num ((c :: rest).take ((c :: rest).length - rem.length)), rem)
          | none => none
        else none
    | [] => none

/-- One-or-more comma-separated array items up to the closing bracket. -/
def jsonArrayItems (fuel : Nat) (cs : List Char) : Option (List Json × List Char) :=
  match fuel with
  | 0 => none
  | fuel + 1 =>
    match jsonValue fuel cs with
    | none => none
    | some (v, rest) =>
        match skipJsonWs rest with
        | ',' :: rest2 =>
            match jsonArrayItems fuel rest2 with
            | some (vs, rem) => some (v :: vs, rem)
            | none => none
        | ']' :: rem => some ([v], rem)
        | _ => none

/-- One-or-more comma-separated object members up to the closing brace. -/
def jsonObjectItems (fuel : Nat) (cs : List Char) : Option (List (String × Json) × List Char) :=
  match fuel with
  | 0 => none
  | fuel + 1 =>
    match skipJsonWs cs with
    | '\"' :: rest =>
        match jsonStringRest (rest.length + 1) rest with
        | none => none
        | some (key, rest1) =>
            match skipJsonWs rest1 with
            | ':' :: rest2 =>
                match jsonValue fuel rest2 with
                | none => none
                | some (v, rest3) =>
                    match skipJsonWs rest3 with
                    | ',' :: rest4 =>
                        match jsonObjectItems fuel rest4 with
                        | some (ms, rem) => some ((⟨key⟩, v) :: ms, rem)
                        | none => none
                    | '\x7d' :: rem => some ([(⟨key⟩, v)], rem)
                    | _ => none
            | _ => none
    | _ => none

end

/-- Fold over an object's members accumulating the two required fields,
per serde's derived deserializer: a duplicate of a required field is an
error, a non-string value for one is an error, unknown fields are
ignored. -/
def chatMessageFields : List (String × Json) → Option String → Option String → Option ChatMessage
  | [], some u, some m => some { user := u, message := m }
  | [], _, _ => none
  | ("user", v) :: rest, uacc, macc =>
      match uacc, v with
      | none, Json.str s => chatMessageFields rest (some s) macc
      | _, _ => none
  | ("message", v) :: rest, uacc, macc =>
      match macc, v with
      | none, Json.str s => chatMessageFields rest uacc (some s)
      | _, _ => none
  | _ :: rest, uacc, macc => chatMessageFields rest uacc macc

/-- Decode a parsed JSON value as a `ChatMessage`: it must be an object
carrying string fields `user` and `message` exactly once each. -/
def decodeChatMessage : Json → Option ChatMessage
  | Json.obj members => chatMessageFields members none none
  | _ => none

/-- Model of `serde_json::from_str::<ChatMessage>`: parse one JSON value,
require only whitespace after it, then decode.  `none` stands for
`Err(_)` (the code never inspects the error value). -/
def from_str_ChatMessage (s : String) : Option ChatMessage :=
  match jsonValue (2 * s.data.length + 2) s.data with
  | none => none
  | some (j, rest) =>
      match skipJsonWs rest with
      | [] => decodeChatMessage j
      | _ => none

/-- Lowercase hex digit, as used by serde_json's string escaper. -/
def hexDigitChar (n : Nat) : Char :=
  if n < 10 then Char.ofNat ('0'.toNat + n) else Char.ofNat ('a'.toNat + n - 10)

/-- serde_json's escaping of one character inside a JSON string: quote,
backslash, the five short control escapes, `\u00XX` for the remaining
control characters, everything else verbatim. -/
def escapeJsonChar (c : Char) : List Char :=
  if c = '\"' then ['\\', '\"']
  else if c = '\\' then ['\\', '\\']
  else if c = Char.ofNat 8 then ['\\', 'b']
  else if c = '\t' then ['\\', 't']
  else if c = '\n' then ['\\', 'n']
  else if c = Char.ofNat 12 then ['\\', 'f']
  else if c = '\r' then ['\\', 'r']
  else if c.toNat < 0x20 then
    let hi := hexDigitChar (c.toNat / 16)
    let lo := hexDigitChar (c.toNat % 16)
    '\\' :: 'u' :: '0' :: '0' :: hi :: lo :: []
  else [c]

/-- A JSON string literal for `s`: quote, escaped characters, quote. -/
def encodeJsonString (s : String) : String :=
  ⟨'\"' :: (s.data.map escapeJsonChar).flatten ++ ['\"']⟩

/-- Model of `serde_json::to_string` on a `ChatMessage`: the compact
two-member object in field declaration order. -/
def to_string_ChatMessage (m : ChatMessage) : String :=
  ⟨['\x7b']⟩ ++ encodeJsonString "user" ++ ":" ++ encodeJsonString m.user ++ ","
    ++ encodeJsonString "message" ++ ":" ++ encodeJsonString m.message ++ ⟨['\x7d']⟩

/-! ### The server's per-request computation (`Rusty::run`'s task body) -/

/-- Index of the first occurrence of `pat` in `l`, if any; models Rust
`str::find` for a (nonempty, ASCII) literal pattern. -/
def findSub (pat : List Char) : List Char → Option Nat
  | [] => if pat.isPrefixOf ([] : List Char) then some 0 else none
  | c :: tl =>
      if pat.isPrefixOf (c :: tl) then some 0
      else (findSub pat tl).map (fun i => i + 1)

/-- The header/body separator the code searches for: `"\r\n\r\n"`. -/
def sepCRLF : List Char := ['\r', '\n', '\r', '\n']

/-- `pre` is a prefix of `s`; models Rust `str::starts_with` (byte-level
prefix, which for exact literal prefixes coincides with the character
level). -/
def startsWithStr (pre s : String) : Bool :=
  pre.data.isPrefixOf s.data

/-- The POST branch's candidate body (lib.rs lines 39-40):
`let body_start = request.find("\r\n\r\n").map(|i| i + 4).unwrap_or(0);`
`let body = &request[body_start..];` -/
def extractBody (request : String) : String :=
  match findSub sepCRLF request.data with
  | some i => ⟨request.data.drop (i + 4)⟩
  | none => ⟨request.data.drop 0⟩

/-- The 200 success response of the POST branch, with `{}` holes filled
by `response_json.len()` and `response_json` (lib.rs lines 45-49). -/
def okResponse (response_json : String) : String :=
  "HTTP/1.1 200 OK\r\nContent-Type: application/json\r\nAccess-Control-Allow-Origin: *\r\nAccess-Control-Allow-Methods: POST, OPTIONS\r\nAccess-Control-Allow-Headers: Content-Type\r\nContent-Length: "
    ++ toString (byteLength response_json) ++ "\r\n\r\n" ++ response_json

/-- The 400 response of the POST branch's decode-failure arm (lib.rs
lines 54-56), verbatim, declared `Content-Length: 22` included. -/
def badRequestResponse : String :=
  "HTTP/1.1 400 Bad Request\r\nContent-Type: text/plain\r\nAccess-Control-Allow-Origin: *\r\nAccess-Control-Allow-Methods: POST, OPTIONS\r\nAccess-Control-Allow-Headers: Content-Type\r\nContent-Length: 22\r\n\r\nInvalid JSON payload"

/-- The OPTIONS branch's response (lib.rs line 62), verbatim. -/
def optionsResponse : String :=
  "HTTP/1.1 200 OK\r\nAccess-Control-Allow-Origin: *\r\nAccess-Control-Allow-Methods: POST, OPTIONS\r\nAccess-Control-Allow-Headers: Content-Type\r\nContent-Length: 0\r\n\r\n"

/-- The fallback branch's response (lib.rs line 66), verbatim, declared
`Content-Length: 29` included. -/
def methodNotAllowedResponse : String :=
  "HTTP/1.1 405 Method Not Allowed\r\nContent-Type: text/plain\r\nAccess-Control-Allow-Origin: *\r\nAccess-Control-Allow-Methods: POST, OPTIONS\r\nAccess-Control-Allow-Headers: Content-Type\r\nContent-Length: 29\r\n\r\nMethod not allowed for this route"

/-- The response the spawned task computes for one decoded request text
(lib.rs lines 37-68): prefix-classify, then on the POST branch extract
the candidate body and decode it, answering 200 on success and 400 on
failure; a recognised OPTIONS prefix and everything else answer their
fixed responses. -/
def handleRequest (request : String) : String :=
  if startsWithStr "POST /api/chat" request then
    match from_str_ChatMessage (extractBody request) with
    | some chat_message =>
        okResponse (to_string_ChatMessage (process_message chat_message))
    | none => badRequestResponse
  else if startsWithStr "OPTIONS /api/chat" request then
    optionsResponse
  else
    methodNotAllowedResponse

/-! ### Inspecting an emitted response

Helpers used only to state properties of the response strings: split at
the first blank line, read the status line, the header lines, a header's
value.  They are not part of the embedded program. -/

/-- Head (status line plus headers) and body of a framed response:
split at the first `"\r\n\r\n"`. -/
def splitAtBlank (cs : List Char) : List Char × List Char :=
  match findSub sepCRLF cs with
  | some i => (cs.take i, cs.drop (i + 4))
  | none => (cs, [])

/-- The body a peer would read from the response: everything after the
first blank line. -/
def bodyOf (resp : String) : String :=
  ⟨(splitAtBlank resp.data).2⟩

/-- Split the pre-body part on `"\r\n"` into lines. -/
def splitCRLF : List Char → List (List Char)
  | '\r' :: '\n' :: tl => [] :: splitCRLF tl
  | c :: tl =>
      match splitCRLF tl with
      | [] => [[c]]
      | h :: t => (c :: h) :: t
  | [] => [[]]

/-- All lines before the body: the status line first, headers after. -/
def responseLines (resp : String) : List String :=
  (splitCRLF (splitAtBlank resp.data).1).map (fun l => ⟨l⟩)

/-- The three-digit status code: characters 9-11 of the status line
(after `"HTTP/1.1 "`). -/
def statusCodeOf (resp : String) : String :=
  ⟨(resp.data.drop 9).take 3⟩

/-- The header lines of a response (everything after the status line). -/
def headerLines (resp : String) : List String :=
  (responseLines resp).tail

/-- The name part of one header line (before the first colon). -/
def headerName (line : String) : String :=
  match findSub [':'] line.data with
  | some i => ⟨line.data.take i⟩
  | none => line

/-- The value part of one header line (after the first colon, leading
spaces dropped). -/
def headerValue (line : String) : String :=
  match findSub [':'] line.data with
  | some i => ⟨(line.data.drop (i + 1)).dropWhile (fun c => c == ' ')⟩
  | none => ""

/-- The value of the first header with the given name, if present. -/
def headerValueOf (name resp : String) : Option String :=
  ((headerLines resp).find? (fun l => headerName l == name)).map headerValue

/-- The declared `Content-Length` value, as written in the response. -/
def contentLengthValue (resp : String) : Option String :=
  headerValueOf "Content-Length" resp

/-- All three fixed CORS header lines are present verbatim. -/
def corsHeadersPresent (resp : String) : Bool :=
  (headerLines resp).contains "Access-Control-Allow-Origin: *"
    && (headerLines resp).contains "Access-Control-Allow-Methods: POST, OPTIONS"
    && (headerLines resp).contains "Access-Control-Allow-Headers: Content-Type"

/-! ### Cross-connection state and the spawned task's outcome -/

/-- The server value (`struct Rusty`): its only field is the shared
message-history vector (the `Arc<Mutex<..>>` wrapper adds sharing and
locking, not state, so the embedded state is the vector itself). -/
structure Rusty where
  messages : List ChatMessage

/-- `Rusty::new`: an empty history. -/
def Rusty.new : Rusty := { messages := [] }

/-- One successfully-read connection, as a transition on the shared
state: the task body (lib.rs lines 34-68) computes `handleRequest` of
the request text and writes it; the `messages` clone moved into the
task is never read or appended to by any branch, so the state component
is returned unchanged. -/
def handleConnection (st : Rusty) (request : String) : Rusty × String :=
  (st, handleRequest request)

/-- How one spawned connection task ends. `completed ws` means it ran to
the end having written the responses in `ws`; `panicked ws` means an
`unwrap()` panicked after the writes in `ws` (the response, if any, is
abandoned). -/
inductive TaskOutcome where
  | completed (written : List String)
  | panicked (written : List String)
deriving DecidableEq

/-- The spawned task of `Rusty::run` with its two fallible IO actions
made explicit: `readRes` is the result of `stream.read` (together with
the lossy decode of the bytes read), and `writeOk` tells whether the
single `stream.write_all` of the computed response succeeds.  Both
results are fed to `.unwrap()` in the source, so an `Err` on either
ends the task in a panic and the response is abandoned. -/
def connectionTask (readRes : Except String String) (writeOk : Bool) : TaskOutcome :=
  match readRes with
  | Except.error _ => TaskOutcome.panicked []
  | Except.ok request =>
      if writeOk then TaskOutcome.completed [handleRequest request]
      else TaskOutcome.panicked []

/-- The concrete request of the spec's POST round-trip example: a POST
to `/api/chat` whose body is the Alice/hi payload. -/
def aliceRequest : String :=
  "POST /api/chat HTTP/1.1\r\nHost: localhost\r\nContent-Type: application/json\r\n\r\n\x7b\"user\":\"Alice\",\"message\":\"hi\"\x7d"

/-! ### Helper lemmas -/

/-- A request with the OPTIONS route prefix cannot also have the POST
route prefix: the two literals differ at their first character. -/
theorem not_post_of_options (t : String) (h : startsWithStr "OPTIONS /api/chat" t = true) :
    startsWithStr "POST /api/chat" t = false := by
  cases hb : startsWithStr "POST /api/chat" t with
  | false => rfl
  | true =>
    exfalso
    rw [startsWithStr, List.isPrefixOf_iff_prefix] at h hb
    obtain ⟨r1, e1⟩ := h
    obtain ⟨r2, e2⟩ := hb
    rw [← e1] at e2
    have hA : "POST /api/chat".data = 'P' :: "OST /api/chat".data := rfl
    have hB : "OPTIONS /api/chat".data = 'O' :: "PTIONS /api/chat".data := rfl
    rw [hA, hB] at e2
    have h0 : some 'P' = some 'O' := by
      have h1 := congrArg List.head? e2
      simp only [List.cons_append, List.head?_cons] at h1
      exact h1
    simp at h0

/-- Dropping a left part plus `n` drops the left part, then `n`. -/
theorem drop_len_add (l₁ l₂ : List Char) (n : Nat) :
    (l₁ ++ l₂).drop (l₁.length + n) = l₂.drop n := by
  induction l₁ with
  | nil => simp
  | cons a tl ih =>
      simp only [List.cons_append, List.length_cons]
      rw [Nat.add_right_comm, List.drop_succ_cons]
      exact ih

/-- If no occurrence of the separator starts inside `u`, the first
occurrence in `u ++ sepCRLF ++ v` is exactly at index `u.length`. -/
theorem findSub_sep_first : ∀ (u v : List Char),
    (∀ j, j < u.length → sepCRLF.isPrefixOf ((u ++ sepCRLF ++ v).drop j) = false) →
    findSub sepCRLF (u ++ sepCRLF ++ v) = some u.length := by
  intro u
  induction u with
  | nil =>
      intro v _
      show findSub sepCRLF ('\r' :: (['\n', '\r', '\n'] ++ v)) = some 0
      rw [findSub]
      have hpre : sepCRLF.isPrefixOf ('\r' :: (['\n', '\r', '\n'] ++ v)) = true := by
        rw [List.isPrefixOf_iff_prefix]
        exact List.prefix_append sepCRLF v
      rw [hpre]
      rfl
  | cons c u ih =>
      intro v h
      have h0 := h 0 (Nat.succ_pos _)
      simp only [List.drop_zero, List.cons_append] at h0
      show findSub sepCRLF (c :: (u ++ sepCRLF ++ v)) = some (u.length + 1)
      rw [findSub, h0]
      have hsh : ∀ j, j < u.length → sepCRLF.isPrefixOf ((u ++ sepCRLF ++ v).drop j) = false := by
        intro j hj
        have := h (j + 1) (Nat.succ_lt_succ hj)
        simpa [List.cons_append, List.drop_succ_cons] using this
      rw [ih v hsh]
      rfl

/-- If no occurrence of the separator starts anywhere in `l`, `findSub`
does not find one. -/
theorem findSub_sep_none : ∀ l : List Char,
    (∀ j, j < l.length → sepCRLF.isPrefixOf (l.drop j) = false) →
    findSub sepCRLF l = none := by
  intro l
  induction l with
  | nil => intro _; rfl
  | cons c tl ih =>
      intro h
      have h0 := h 0 (Nat.succ_pos _)
      simp only [List.drop_zero] at h0
      rw [findSub, h0]
      have hsh : ∀ j, j < tl.length → sepCRLF.isPrefixOf (tl.drop j) = false := by
        intro j hj
        have := h (j + 1) (Nat.succ_lt_succ hj)
        simpa [List.drop_succ_cons] using this
      rw [ih hsh]
      rfl

set_option maxRecDepth 4096 in
/-- The first twelve characters of any 200 POST response are the fixed
status-line start, whatever the JSON payload is. -/
theorem take12_okResponse (j : String) :
    (okResponse j).data.take 12 = "HTTP/1.1 200".data := by
  rw [okResponse, String.append_assoc, String.append_assoc, String.data_append]
  have hlen : 12 ≤ ("HTTP/1.1 200 OK\r\nContent-Type: application/json\r\nAccess-Control-Allow-Origin: *\r\nAccess-Control-Allow-Methods: POST, OPTIONS\r\nAccess-Control-Allow-Headers: Content-Type\r\nContent-Length: " : String).data.length := by
    decide
  rw [List.take_append_of_le_length hlen]
  decide

/-- No 200 POST response equals the fixed 405 response: their status
lines differ. -/
theorem okResponse_ne_mna (j : String) : okResponse j ≠ methodNotAllowedResponse := by
  intro h
  have h12 : (okResponse j).data.take 12 = methodNotAllowedResponse.data.take 12 := by rw [h]
  rw [take12_okResponse] at h12
  exact absurd h12 (by decide)

/-! ### The claims -/

set_option maxRecDepth 8192 in
/-- C1: the claim that every emitted response declares a `Content-Length`
equal to its body's exact byte length fails on the code: evaluating the
emitted responses shows the 400 response declares 22 while its body
`"Invalid JSON payload"` is 20 bytes, and the 405 response declares 29
while its body `"Method not allowed for this route"` is 33 bytes (the
OPTIONS response's declared 0 does match its empty body). -/
theorem content_length_declarations :
    contentLengthValue badRequestResponse = some "22"
      ∧ byteLength (bodyOf badRequestResponse) = 20
      ∧ contentLengthValue methodNotAllowedResponse = some "29"
      ∧ byteLength (bodyOf methodNotAllowedResponse) = 33
      ∧ contentLengthValue optionsResponse = some "0"
      ∧ byteLength (bodyOf optionsResponse) = 0 := by
  decide

/-- C2: for every `ChatMessage` input `m`, the transform returns the
`ChatMessage` whose `user` is the fixed identity string `"Rusty"`
(whatever `m.user` was) and whose `message` is the fixed prefix
`"You said: "` concatenated with `m.message` verbatim.  Being a total
Lean function of its input that builds a new record, it has no failure
mode and mutates nothing. -/
theorem process_message_total (m : ChatMessage) :
    process_message m = { user := "Rusty", message := "You said: " ++ m.message } := rfl

set_option maxRecDepth 16384 in
/-- C3: the request whose text starts with `"POST /api/chat"` and whose
body is the Alice/hi payload is answered with the 200 response carrying
`Content-Type: application/json`, the three CORS headers, and the JSON
body with `user` `"Rusty"` and `message` `"You said: hi"`. -/
theorem post_alice_roundtrip :
    handleRequest aliceRequest
        = okResponse "\x7b\"user\":\"Rusty\",\"message\":\"You said: hi\"\x7d"
      ∧ statusCodeOf (handleRequest aliceRequest) = "200"
      ∧ headerValueOf "Content-Type" (handleRequest aliceRequest) = some "application/json"
      ∧ corsHeadersPresent (handleRequest aliceRequest) = true
      ∧ bodyOf (handleRequest aliceRequest)
          = "\x7b\"user\":\"Rusty\",\"message\":\"You said: hi\"\x7d" := by
  decide

/-- C4 counterexample: the claim that a read or write failure is
recovered by the handler without panicking is false: the task feeds
both IO results to `unwrap()`, so some failing connection ends in a
panic — here, a failed read with a succeeding write channel. -/
theorem read_failure_refutes_no_panic :
    ¬ (∀ (r : Except String String) (w : Bool),
        connectionTask r w ≠ TaskOutcome.panicked []) := by
  intro h
  exact h (Except.error "connection reset by peer") true rfl

/-- C4 amended: a read failure makes the connection task panic before
anything is written, and a write failure makes it panic with the
response abandoned; in both cases the task ends in the panic outcome
(confinement of that panic to the one spawned task is the async
runtime's behaviour, outside this embedding). -/
theorem io_failure_panics :
    (∀ (e : String) (w : Bool),
        connectionTask (Except.error e) w = TaskOutcome.panicked [])
      ∧ (∀ r : String, connectionTask (Except.ok r) false = TaskOutcome.panicked []) :=
  ⟨fun _ _ => rfl, fun _ => rfl⟩

set_option maxRecDepth 8192 in
/-- C5: every request on the POST branch whose candidate body fails to
decode as a `ChatMessage` is answered with the fixed 400 response —
a constant string whose definition never invokes the transform — and
that response carries the fixed plain-text error body and the three
CORS headers. -/
theorem malformed_payload_400 :
    (∀ request : String, startsWithStr "POST /api/chat" request = true →
        from_str_ChatMessage (extractBody request) = none →
        handleRequest request = badRequestResponse)
      ∧ statusCodeOf badRequestResponse = "400"
      ∧ bodyOf badRequestResponse = "Invalid JSON payload"
      ∧ headerValueOf "Content-Type" badRequestResponse = some "text/plain"
      ∧ corsHeadersPresent badRequestResponse = true := by
  refine ⟨?_, by decide, by decide, by decide, by decide⟩
  intro request h1 h2
  simp [handleRequest, h1, h2]

set_option maxRecDepth 8192 in
/-- C5 witness: a POST whose body is not JSON gets the 400 response. -/
theorem malformed_payload_400_witness :
    handleRequest "POST /api/chat HTTP/1.1\r\n\r\nnot json" = badRequestResponse :=
  malformed_payload_400.1 "POST /api/chat HTTP/1.1\r\n\r\nnot json" (by decide) (by decide)

set_option maxRecDepth 8192 in
/-- C6: every request with the `"OPTIONS /api/chat"` prefix is answered
with the fixed OPTIONS response, whose status is 200, whose body is
empty, whose declared `Content-Length` is 0, which carries the three
CORS headers, and which has no `Content-Type` header. -/
theorem options_branch :
    (∀ request : String, startsWithStr "OPTIONS /api/chat" request = true →
        handleRequest request = optionsResponse)
      ∧ statusCodeOf optionsResponse = "200"
      ∧ bodyOf optionsResponse = ""
      ∧ contentLengthValue optionsResponse = some "0"
      ∧ corsHeadersPresent optionsResponse = true
      ∧ (headerLines optionsResponse).all (fun l => headerName l != "Content-Type") = true := by
  refine ⟨?_, by decide, by decide, by decide, by decide, by decide⟩
  intro request h
  have hp := not_post_of_options request h
  simp [handleRequest, hp, h]

/-- C6 witness: a concrete preflight request gets the OPTIONS response. -/
theorem options_branch_witness :
    handleRequest "OPTIONS /api/chat HTTP/1.1\r\nOrigin: x\r\n\r\n" = optionsResponse :=
  options_branch.1 "OPTIONS /api/chat HTTP/1.1\r\nOrigin: x\r\n\r\n" (by decide)

set_option maxRecDepth 8192 in
/-- C7: every request matching neither recognised prefix gets the fixed
405 response with `Content-Type: text/plain`, the three CORS headers and
the fixed plain-text body; but the declared `Content-Length` of that
response is 29 while the body is 33 bytes, so the claim's final
`Content-Length`-matches-body conjunct fails on the code. -/
theorem fallback_branch :
    (∀ request : String, startsWithStr "POST /api/chat" request = false →
        startsWithStr "OPTIONS /api/chat" request = false →
        handleRequest request = methodNotAllowedResponse)
      ∧ statusCodeOf methodNotAllowedResponse = "405"
      ∧ headerValueOf "Content-Type" methodNotAllowedResponse = some "text/plain"
      ∧ corsHeadersPresent methodNotAllowedResponse = true
      ∧ bodyOf methodNotAllowedResponse = "Method not allowed for this route"
      ∧ contentLengthValue methodNotAllowedResponse = some "29"
      ∧ byteLength (bodyOf methodNotAllowedResponse) = 33 := by
  refine ⟨?_, by decide, by decide, by decide, by decide, by decide, by decide⟩
  intro request h1 h2
  simp [handleRequest, h1, h2]

/-- C7 witness: a GET request gets the 405 response. -/
theorem fallback_branch_witness :
    handleRequest "GET /anything HTTP/1.1\r\n\r\n" = methodNotAllowedResponse :=
  fallback_branch.1 "GET /anything HTTP/1.1\r\n\r\n" (by decide) (by decide)

/-- C8: on the POST branch the candidate body is exactly the text after
the first occurrence of the `"\r\n\r\n"` separator (no occurrence starts
earlier than the one exhibited), and the whole request text when no
occurrence exists anywhere in it. -/
theorem body_extraction :
    (∀ u v : List Char,
        (∀ j, j < u.length → sepCRLF.isPrefixOf ((u ++ sepCRLF ++ v).drop j) = false) →
        extractBody ⟨u ++ sepCRLF ++ v⟩ = ⟨v⟩)
      ∧ (∀ t : String,
          (∀ j, j < t.data.length → sepCRLF.isPrefixOf (t.data.drop j) = false) →
          extractBody t = t) := by
  constructor
  · intro u v h
    have hf := findSub_sep_first u v h
    unfold extractBody
    dsimp only
    rw [hf]
    have hd : ((u ++ sepCRLF) ++ v).drop (u.length + 4) = v := by
      rw [List.append_assoc]
      rw [drop_len_add u (sepCRLF ++ v) 4]
      rfl
    show (⟨((u ++ sepCRLF) ++ v).drop (u.length + 4)⟩ : String) = ⟨v⟩
    rw [hd]
  · intro t h
    obtain ⟨d⟩ := t
    have hf := findSub_sep_none d h
    unfold extractBody
    dsimp only
    rw [hf]
    simp

/-- C8 witness: the body after a concrete header block, and a
separator-free request returned whole. -/
theorem body_extraction_witness :
    extractBody ⟨"POST /api/chat X".data ++ sepCRLF ++ "payload".data⟩ = ⟨"payload".data⟩
      ∧ extractBody "POST /api/chat no separator" = "POST /api/chat no separator" :=
  ⟨body_extraction.1 "POST /api/chat X".data "payload".data (by decide),
   body_extraction.2 "POST /api/chat no separator" (by decide)⟩

/-- C9: the shared message history created by `Rusty::new` is still the
empty vector after any number of handled connections: no branch of the
task body ever touches it. -/
theorem history_stays_empty (reqs : List String) :
    (reqs.foldl (fun st r => (handleConnection st r).1) Rusty.new).messages = [] := by
  have h : ∀ (l : List String) (st : Rusty),
      l.foldl (fun st r => (handleConnection st r).1) st = st := by
    intro l
    induction l with
    | nil => intro st; rfl
    | cons a tl ih => intro st; exact ih st
  rw [h]
  rfl

set_option maxRecDepth 8192 in
/-- C10: classification is by string prefix only: every request text
with the `"POST /api/chat"` prefix (`"POST /api/chatter..."` included)
is handled by the POST branch — it gets the 200 response for its decoded
body or the 400 response, never the 405 one — and every text with the
`"OPTIONS /api/chat"` prefix gets the OPTIONS response. -/
theorem prefix_classification :
    (∀ t : String, startsWithStr "POST /api/chat" t = true →
        (∃ m : ChatMessage, from_str_ChatMessage (extractBody t) = some m
            ∧ handleRequest t = okResponse (to_string_ChatMessage (process_message m)))
          ∨ handleRequest t = badRequestResponse)
      ∧ (∀ t : String, startsWithStr "POST /api/chat" t = true →
          handleRequest t ≠ methodNotAllowedResponse)
      ∧ (∀ t : String, startsWithStr "OPTIONS /api/chat" t = true →
          handleRequest t = optionsResponse) := by
  have hmain : ∀ t : String, startsWithStr "POST /api/chat" t = true →
      (∃ m : ChatMessage, from_str_ChatMessage (extractBody t) = some m
          ∧ handleRequest t = okResponse (to_string_ChatMessage (process_message m)))
        ∨ handleRequest t = badRequestResponse := by
    intro t h
    cases hm : from_str_ChatMessage (extractBody t) with
    | some m => exact Or.inl ⟨m, rfl, by simp [handleRequest, h, hm]⟩
    | none => exact Or.inr (by simp [handleRequest, h, hm])
  refine ⟨hmain, ?_, ?_⟩
  · intro t h hcontra
    rcases hmain t h with ⟨m, _, heq⟩ | heq
    · exact okResponse_ne_mna (to_string_ChatMessage (process_message m))
        (by rw [← heq]; exact hcontra)
    · rw [heq] at hcontra
      exact absurd hcontra (by decide)
  · intro t h
    have hp := not_post_of_options t h
    simp [handleRequest, hp, h]

set_option maxRecDepth 8192 in
/-- C10 witness: `"POST /api/chatter..."` lands on the POST branch (and
here, its body failing to decode, gets the 400 response), and an
extended OPTIONS path gets the OPTIONS response. -/
theorem prefix_classification_witness :
    ((∃ m : ChatMessage,
        from_str_ChatMessage (extractBody "POST /api/chatter HTTP/1.1\r\n\r\nx") = some m
          ∧ handleRequest "POST /api/chatter HTTP/1.1\r\n\r\nx"
              = okResponse (to_string_ChatMessage (process_message m)))
      ∨ handleRequest "POST /api/chatter HTTP/1.1\r\n\r\nx" = badRequestResponse)
    ∧ handleRequest "OPTIONS /api/chatter HTTP/1.1\r\n\r\n" = optionsResponse :=
  ⟨prefix_classification.1 "POST /api/chatter HTTP/1.1\r\n\r\nx" (by decide),
   prefix_classification.2.2 "OPTIONS /api/chatter HTTP/1.1\r\n\r\n" (by decide)⟩
